import Mathlib

/-!
# GraphWeaver client core: shallow embedding and verification

A shallow embedding, in Lean 4, of the protocol/state-machine core of the
GraphWeaver front end:

* the SSE frame buffer and event splitter of `sendStreamingMessage`
  (`client/lib/api.js`, streaming variant),
* the per-frame event decoder,
* the chat page state machine (`client/app/chat/page.jsx`): message list,
  loading flag, error banner, session state, checkpoint gate, phase,
  retry bookkeeping,
* the older unified (non-streaming) chat page state machine
  (`sendUnifiedMessage` consumer), which owns the build→query mode switch.

JavaScript values flowing through the client are modelled by `JVal`;
JS truthiness, property access and string coercion are modelled explicitly.
`JSON.parse` is an external builtin and is passed in as a function
`String → Option JVal` (`none` = parse exception).
-/

set_option autoImplicit false

mutual
/-- Model of a parsed JSON value (JS arrays are not needed by the client
core). `jnull` also stands for the JS `null` initialisation value. -/
inductive JVal where
  | jnull : JVal
  | jbool : Bool → JVal
  | jnum : Int → JVal
  | jstr : String → JVal
  | jobj : JFields → JVal
deriving DecidableEq, Repr

/-- Fields of a JSON object, in order. -/
inductive JFields where
  | nil : JFields
  | cons : String → JVal → JFields → JFields
deriving DecidableEq, Repr
end

namespace JFields

/-- Key lookup among the fields of a parsed object. -/
def find? : JFields → String → Option JVal
  | nil, _ => none
  | cons k v rest, key => if k == key then some v else find? rest key

end JFields

namespace JVal

/-- JS truthiness of a value: `null`, `false`, `0` and `""` are falsy. -/
def isTruthy : JVal → Bool
  | jnull => false
  | jbool b => b
  | jnum n => n != 0
  | jstr s => s != ""
  | jobj _ => true

/-- JS property access `v.k` restricted to data objects: `none` models
`undefined` (missing key or non-object receiver). -/
def field : JVal → String → Option JVal
  | jobj fields, k => fields.find? k
  | _, _ => none

/-- JS string coercion as used by template literals and `+=`. -/
def toStr : JVal → String
  | jnull => "null"
  | jbool b => if b then "true" else "false"
  | jnum n => toString n
  | jstr s => s
  | jobj _ => "[object Object]"

end JVal

/-- String coercion of a possibly-`undefined` JS value (`none` prints as
`"undefined"`, as in `currentContent += data.delta` with a missing field). -/
def jsStr : Option JVal → String
  | none => "undefined"
  | some v => v.toStr

/-- JS `a || b` on a possibly-undefined left operand. -/
def jsOr (a b : Option JVal) : Option JVal :=
  match a with
  | some v => if v.isTruthy then some v else b
  | none => b

/-- Truthiness of a possibly-undefined value (`undefined` is falsy). -/
def jsTruthy : Option JVal → Bool
  | none => false
  | some v => v.isTruthy

/-- Overwrite-or-append one key of an association list, as JS object spread
`{...prev, k: v}` behaves for a single key (position of existing keys kept). -/
def setKey (m : List (String × JVal)) (k : String) (v : JVal) : List (String × JVal) :=
  if m.any (fun p => p.1 == k) then
    m.map (fun p => if p.1 == k then (k, v) else p)
  else
    m ++ [(k, v)]

/-- Fold every field of a response object into the session-state map. -/
def mergeFields (m : List (String × JVal)) : JFields → List (String × JVal)
  | JFields.nil => m
  | JFields.cons k v rest => mergeFields (setKey m k v) rest

/-- Shallow merge `{...prev, ...resp}` of a backend response into the
session-state map; a non-object response contributes nothing enumerable. -/
def mergeResponse (m : List (String × JVal)) (resp : JVal) : List (String × JVal) :=
  match resp with
  | JVal.jobj fields => mergeFields m fields
  | _ => m

/-! ## Frame Buffer & Event Splitter

`sendStreamingMessage` accumulates decoded text in `buffer`, splits on the
blank-line delimiter `"\n\n"`, emits every piece but the last and keeps the
last as the new buffer:

```js
buffer += decoder.decode(value, { stream: true });
const messages = buffer.split('\n\n');
buffer = messages.pop() || '';
```

`splitFrames` is JavaScript's `s.split('\n\n')` (leftmost, non-overlapping)
returning `(all pieces but the last, last piece)`. -/

/-- Splitting: `splitFrames s = (frames, remainder)` cuts a character list on the
two-newline delimiter, leftmost-first; the trailing piece (after the last
delimiter) is the remainder. -/
def splitFrames : List Char → List (List Char) × List Char
  | [] => ([], [])
  | [c] => ([], [c])
  | c :: d :: rest =>
    if c = '\n' ∧ d = '\n' then
      let p := splitFrames rest
      ([] :: p.1, p.2)
    else
      let p := splitFrames (d :: rest)
      match p.1 with
      | [] => ([], c :: p.2)
      | f :: fs => ((c :: f) :: fs, p.2)

/-- Incremental frame extraction over successive chunks, carrying the buffer:
each chunk is appended to the buffer, complete frames are emitted, the
trailing partial frame is retained; at end of stream the remainder is
discarded. -/
def runChunks : List Char → List (List Char) → List (List Char)
  | _, [] => []
  | buf, ch :: rest =>
    let p := splitFrames (buf ++ ch)
    p.1 ++ runChunks p.2 rest

/-! ## Event Decoder

One frame is split into lines; a line starting with the event tag sets the
type, a line starting with the data tag is JSON-parsed into `data`
(`data = null` initially); a parse exception is caught and logged:

```js
let eventType = 'message';
let data = null;
for (const line of lines) {
  if (line.startsWith('event: ')) {
    eventType = line.substring(7).trim();
  } else if (line.startsWith('data: ')) {
    try { data = JSON.parse(line.substring(6)); } catch (e) { ... }
  }
}
```
-/

/-- JS `String.prototype.trim`: strip whitespace from both ends. -/
def trimChars (s : List Char) : List Char :=
  ((s.dropWhile Char.isWhitespace).reverse.dropWhile Char.isWhitespace).reverse

/-- JS `msg.split('\n')`: cut a frame into its lines (every piece kept). -/
def splitLines : List Char → List (List Char)
  | [] => [[]]
  | c :: rest =>
    if c = '\n' then [] :: splitLines rest
    else
      match splitLines rest with
      | [] => [[c]]
      | l :: ls => (c :: l) :: ls

/-- A decoded stream event: the tag and the JSON payload (`jnull` both for a
frame without a successfully parsed data line and for a parsed JSON `null`,
exactly as in the JS client where both are the value `null`). -/
structure SSEEvent where
  eventType : String
  data : JVal
deriving DecidableEq, Repr

/-- One line of a frame folded into the event being decoded: the JS
`line.startsWith(…)` / `line.substring(…)` tests on the line's characters.
Here `jsonParse` stands for the external `JSON.parse`; `none` models a parse
exception, which is caught: the event keeps its previous data. -/
def decodeStep (jsonParse : String → Option JVal) (ev : SSEEvent) (line : List Char) :
    SSEEvent :=
  if "event: ".data.isPrefixOf line then
    { ev with eventType := String.mk (trimChars (line.drop 7)) }
  else if "data: ".data.isPrefixOf line then
    match jsonParse (String.mk (line.drop 6)) with
    | some v => { ev with data := v }
    | none => ev
  else ev

/-- Decode one frame (its list of lines) into an event. -/
def decodeFrame (jsonParse : String → Option JVal) (lines : List (List Char)) : SSEEvent :=
  lines.foldl (decodeStep jsonParse) { eventType := "message", data := JVal.jnull }

/-- Decode one raw frame, splitting it into lines first. -/
def decodeRawFrame (jsonParse : String → Option JVal) (frame : List Char) : SSEEvent :=
  decodeFrame jsonParse (splitLines frame)

/-! ## Chat page state machine (`client/app/chat/page.jsx`)

React state of the streaming chat page, with the `sendStreamingMessage`
callbacks fused in. Message ids (`user-…`, `agent-…`, `error-…` built from
`Date.now()`) are passed in as parameters. One faithfulness point: inside the
`onComplete` closure, `currentPhase` is the value captured when `handleSend`
was created (React state reads are stale inside one exchange), so the phase
comparison is always against the phase at the start of the exchange; the
model passes that value around as `phase0`. -/

/-- Message roles. -/
inductive Role where
  | user : Role
  | agent : Role
  | system : Role
deriving DecidableEq, Repr

/-- A chat message. `content` is the raw JS value assigned in the source
(`none` = `undefined`, e.g. a `complete` payload without a `message` field). -/
structure ChatMessage where
  id : String
  role : Role
  content : Option JVal
  metadata : Option JVal := none
deriving DecidableEq, Repr

/-- Checkpoint UI state, created from a `complete` payload that declares a
checkpoint. -/
structure Checkpoint where
  checkpoint : Option JVal
  proposedData : Option JVal
  actions : Option JVal
deriving DecidableEq, Repr

/-- The React state of the chat page plus the `lastSendRef` retry refcell.
`error` conflates JS `null` (banner hidden) with `undefined` into `none`. -/
structure ClientState where
  messages : List ChatMessage
  isLoading : Bool
  error : Option JVal
  sessionState : List (String × JVal)
  checkpointData : Option Checkpoint
  currentPhase : JVal
  mode : String
  lastSend : Option (String × Option String)
deriving DecidableEq, Repr

/-- The hard-coded welcome message of the chat page. -/
def welcomeMsg : ChatMessage where
  id := "welcome"
  role := Role.agent
  content := some (JVal.jstr "Welcome to GraphWeaver! I will help you build your knowledge graph. What kind of graph would you like to create?")

/-- Initial page state. -/
def initialState : ClientState where
  messages := [welcomeMsg]
  isLoading := false
  error := none
  sessionState := []
  checkpointData := none
  currentPhase := JVal.jstr "user_intent"
  mode := "build"
  lastSend := none

/-- Fresh message ids minted by one `handleSend` call. -/
structure Ids where
  uid : String
  aid : String
  eid : String
  qid : String
deriving DecidableEq, Repr

/-- The user `ChatMessage` appended on send. -/
def mkUserMsg (uid : String) (text : String) : ChatMessage :=
  { id := uid, role := Role.user, content := some (JVal.jstr text) }

/-- The system `ChatMessage` appended on a failure. -/
def mkErrorMsg (eid : String) (text : String) : ChatMessage :=
  { id := eid, role := Role.system, content := some (JVal.jstr ("Error: " ++ text)) }

/-- The `onToken` callback: update the agent message with the accumulated content, or
create it (`prev.find` / `prev.map` / append in the source). -/
def tokenUpdate (aid : String) (content : String) (msgs : List ChatMessage) :
    List ChatMessage :=
  if msgs.any (fun m => m.id == aid) then
    msgs.map (fun m => if m.id == aid then { m with content := some (JVal.jstr content) } else m)
  else
    msgs ++ [{ id := aid, role := Role.agent, content := some (JVal.jstr content) }]

/-- The `onComplete` callback: overwrite the agent message content with the payload's own
`message` field, merge the payload into session state, set or clear the
checkpoint, and adopt a declared `phase` differing from the captured one. -/
def completeUpdate (aid : String) (phase0 : JVal) (resp : JVal) (s : ClientState) :
    ClientState :=
  { s with
    messages := s.messages.map (fun m =>
      if m.id == aid then { m with content := resp.field "message", metadata := some resp }
      else m),
    sessionState := mergeResponse s.sessionState resp,
    checkpointData :=
      if jsTruthy (resp.field "checkpoint") then
        some { checkpoint := resp.field "checkpoint",
               proposedData := resp.field "proposed_data",
               actions := resp.field "actions" }
      else none,
    currentPhase :=
      match resp.field "phase" with
      | some pv => if pv.isTruthy ∧ pv ≠ phase0 then pv else s.currentPhase
      | none => s.currentPhase,
    isLoading := false }

/-- The `onError` callback: record the failure value, append one system message, stop
loading. -/
def onErrorUpdate (eid : String) (errMsg : Option JVal) (s : ClientState) : ClientState :=
  { s with
    error := some (errMsg.getD JVal.jnull),
    messages := s.messages ++ [mkErrorMsg eid (jsStr errMsg)],
    isLoading := false }

/-- The `catch` block of `handleSend`: `err.message || 'Failed to send
message'`, error banner, one system message, stop loading. -/
def catchUpdate (eid : String) (m : String) (s : ClientState) : ClientState :=
  let msg := if m == "" then "Failed to send message" else m
  { s with
    error := some (JVal.jstr msg),
    messages := s.messages ++ [mkErrorMsg eid msg],
    isLoading := false }

/-- Dispatch of one decoded event to the callbacks: dropped when `data` is
falsy, otherwise routed on the event tag; threading the accumulated token
content (`currentContent`). -/
def processEvent (aid eid : String) (phase0 : JVal) (st : String × ClientState)
    (ev : SSEEvent) : String × ClientState :=
  if ev.data.isTruthy then
    if ev.eventType == "thinking" then st
    else if ev.eventType == "token" then
      let acc := st.1 ++ jsStr (ev.data.field "delta")
      (acc, { st.2 with messages := tokenUpdate aid acc st.2.messages })
    else if ev.eventType == "complete" then
      (st.1, completeUpdate aid phase0 ev.data st.2)
    else if ev.eventType == "error" then
      (st.1, onErrorUpdate eid (ev.data.field "message") st.2)
    else st
  else st

/-- All decoded events of one exchange, in arrival order. -/
def processEvents (aid eid : String) (phase0 : JVal) (st : String × ClientState)
    (evs : List SSEEvent) : String × ClientState :=
  evs.foldl (processEvent aid eid phase0) st

/-- Outcome of the streaming transport for one build-mode exchange. -/
inductive BuildNet where
  | pre (errMsg : String)
  | stream (events : List SSEEvent) (crash : Option String)
deriving DecidableEq, Repr

/-- Outcome of the non-streaming `queryGraph` call for one query-mode
exchange. -/
inductive QueryNet where
  | ok (result : JVal)
  | err (errMsg : String)
deriving DecidableEq, Repr

/-- Reading `result.query_result.answer`: reading `.answer` of `undefined` or `null`
throws a `TypeError`, which lands in the `catch` of `handleSend`. -/
def queryAnswer (result : JVal) : Except String (Option JVal) :=
  match result.field "query_result" with
  | none => Except.error "TypeError"
  | some JVal.jnull => Except.error "TypeError"
  | some v => Except.ok (v.field "answer")

/-- State after the synchronous head of `handleSend`: user message appended,
in-flight set, banner cleared, retry pair recorded. -/
def sendStart (uid : String) (s : ClientState) (text : String) (action : Option String) :
    ClientState :=
  { s with
    messages := s.messages ++ [mkUserMsg uid text],
    isLoading := true,
    error := none,
    lastSend := some (text, action) }

/-- The `handleSend(messageText, action)` handler of the streaming chat page: guard,
append the user message, mark in flight, record the retry pair, then build
mode (streaming callbacks) or query mode, with the `catch` for a throw
before/outside the stream. A clean stream end without a terminal event runs
no further code (there is none after the `await`). -/
def handleSend (ids : Ids) (s : ClientState) (text : String) (action : Option String)
    (bn : BuildNet) (qn : QueryNet) : ClientState :=
  if trimChars text.data = [] ∨ s.isLoading then s
  else
    let s1 := sendStart ids.uid s text action
    if s.mode == "build" then
      match bn with
      | BuildNet.pre m => catchUpdate ids.eid m s1
      | BuildNet.stream evs crash =>
        let r := processEvents ids.aid ids.eid s.currentPhase ("", s1) evs
        match crash with
        | some m => onErrorUpdate ids.eid (some (JVal.jstr m)) r.2
        | none => r.2
    else
      match qn with
      | QueryNet.ok result =>
        match queryAnswer result with
        | Except.ok ans =>
          let queryMsg : ChatMessage :=
            { id := ids.qid, role := Role.agent, content := ans,
              metadata := result.field "query_result" }
          { s1 with messages := s1.messages ++ [queryMsg], isLoading := false }
        | Except.error m => catchUpdate ids.eid m s1
      | QueryNet.err m => catchUpdate ids.eid m s1

/-- The `handleRetry` handler: clear the banner and replay the recorded `{message,
action}` pair verbatim; nothing is dispatched when no pair is recorded. -/
def handleRetry (ids : Ids) (s : ClientState) (bn : BuildNet) (qn : QueryNet) :
    ClientState :=
  let s0 := { s with error := none }
  match s.lastSend with
  | none => s0
  | some (m, a) => if m == "" then s0 else handleSend ids s0 m a bn qn

/-- The `handleCheckpointAction` handler: clear the checkpoint UI, then send the action
name as both the message text and the action parameter. -/
def handleCheckpointAction (ids : Ids) (s : ClientState) (action : String)
    (bn : BuildNet) (qn : QueryNet) : ClientState :=
  handleSend ids { s with checkpointData := none } action (some action) bn qn

/-- JSON body of the streaming chat request
(`JSON.stringify({ session_id: sessionId, message })` in
`sendStreamingMessage`). -/
def streamRequestBody (sessionId message : String) : List (String × JVal) :=
  [("session_id", JVal.jstr sessionId), ("message", JVal.jstr message)]

/-- JSON body of the unified (non-streaming) chat request, which does carry
the explicit action (`null` when absent). -/
def unifiedRequestBody (sessionId message : String) (action : Option String) :
    List (String × JVal) :=
  [("session_id", JVal.jstr sessionId), ("message", JVal.jstr message),
   ("action", match action with | some a => JVal.jstr a | none => JVal.jnull)]

/-! ## Unified chat page state machine (`sendUnifiedMessage` consumer)

The older, non-streaming chat page: one request, one JSON response. This is
the variant that owns the build→query mode switch
(`if (response.current_phase === 'query' && response.graph_built)`) and runs
`setIsLoading(false)` in a `finally`. It keeps no retry refcell. -/

namespace Unified

/-- React state of the unified chat page. -/
structure UState where
  messages : List ChatMessage
  isLoading : Bool
  error : Option JVal
  sessionState : List (String × JVal)
  checkpointData : Option Checkpoint
  currentPhase : JVal
  mode : String
deriving DecidableEq, Repr

/-- Initial state of the unified page. -/
def initial : UState where
  messages := [welcomeMsg]
  isLoading := false
  error := none
  sessionState := []
  checkpointData := none
  currentPhase := JVal.jstr "user_intent"
  mode := "build"

/-- Fresh message ids minted by one unified `handleSend` call (`sid` is the
`system-…` id of the graph-built transition message). -/
structure Ids where
  uid : String
  aid : String
  eid : String
  qid : String
  sid : String
deriving DecidableEq, Repr

/-- Outcome of the `sendUnifiedMessage` call. -/
inductive Net where
  | ok (response : JVal)
  | err (errMsg : String)
deriving DecidableEq, Repr

/-- The `catch` block of the unified `handleSend` (no loading update here;
that is the `finally`). -/
def catchUpdate (eid : String) (m : String) (s : UState) : UState :=
  let msg := if m == "" then "Failed to send message" else m
  { s with
    error := some (JVal.jstr msg),
    messages := s.messages ++ [mkErrorMsg eid msg] }

/-- The build-mode response handling: agent message with
`response.message || response.response`, session-state merge, checkpoint
gate from `awaiting_user_action && checkpoint`, backend-declared phase, and
the one-way build→query mode switch with its transition message. -/
def buildUpdate (ids : Ids) (response : JVal) (s : UState) : UState :=
  let agentMsg : ChatMessage :=
    { id := ids.aid, role := Role.agent,
      content := jsOr (response.field "message") (response.field "response"),
      metadata := some response }
  let s1 := { s with
    messages := s.messages ++ [agentMsg],
    sessionState := mergeResponse s.sessionState response,
    checkpointData :=
      if jsTruthy (response.field "awaiting_user_action") &&
          jsTruthy (response.field "checkpoint") then
        some { checkpoint := response.field "checkpoint",
               proposedData := response.field "proposed_data",
               actions := response.field "actions" }
      else none,
    currentPhase :=
      match response.field "current_phase" with
      | some pv => if pv.isTruthy ∧ pv ≠ s.currentPhase then pv else s.currentPhase
      | none => s.currentPhase }
  if response.field "current_phase" = some (JVal.jstr "query") &&
      jsTruthy (response.field "graph_built") then
    let transitionMsg : ChatMessage :=
      { id := ids.sid, role := Role.system,
        content := some (JVal.jstr "✓ Graph built successfully! You can now ask questions about your knowledge graph.") }
    { s1 with mode := "query", messages := s1.messages ++ [transitionMsg] }
  else s1

/-- State after the synchronous head of the unified `handleSend` (which has
no retry refcell). -/
def sendStart (uid : String) (s : UState) (text : String) : UState :=
  { s with
    messages := s.messages ++ [mkUserMsg uid text],
    isLoading := true,
    error := none }

/-- The `handleSend` handler of the unified chat page: guard, user message, in-flight
mark, build or query branch, `catch`, and `finally setIsLoading(false)`. -/
def handleSend (ids : Ids) (s : UState) (text : String) (action : Option String)
    (bn : Net) (qn : QueryNet) : UState :=
  if trimChars text.data = [] ∨ s.isLoading then s
  else
    let s1 := sendStart ids.uid s text
    let s2 :=
      if s.mode == "build" then
        match bn with
        | Net.ok response => buildUpdate ids response s1
        | Net.err m => catchUpdate ids.eid m s1
      else
        match qn with
        | QueryNet.ok result =>
          match queryAnswer result with
          | Except.ok ans =>
            let queryMsg : ChatMessage :=
              { id := ids.qid, role := Role.agent, content := ans,
                metadata := result.field "query_result" }
            { s1 with messages := s1.messages ++ [queryMsg] }
          | Except.error m => catchUpdate ids.eid m s1
        | QueryNet.err m => catchUpdate ids.eid m s1
    { s2 with isLoading := false }

/-- The `handleCheckpointAction` handler of the unified page: clear the checkpoint UI,
then send the action as both the message and the action parameter. -/
def handleCheckpointAction (ids : Ids) (s : UState) (action : String)
    (bn : Net) (qn : QueryNet) : UState :=
  handleSend ids { s with checkpointData := none } action (some action) bn qn

end Unified

/-! ## Derived definitions used in the statements below -/

/-- The agent `ChatMessage` as created by the `onToken` callback. -/
def mkAgentMsg (aid : String) (content : String) : ChatMessage :=
  { id := aid, role := Role.agent, content := some (JVal.jstr content) }

/-- A `token` event whose payload is `{"delta": d}`. -/
def tokenEv (d : String) : SSEEvent :=
  { eventType := "token", data := JVal.jobj (JFields.cons "delta" (JVal.jstr d) JFields.nil) }

/-- Count of system-role messages in a message list. -/
def countSys (msgs : List ChatMessage) : Nat :=
  msgs.countP (fun m => m.role == Role.system)

/-- An event that the dispatch treats as a terminal outcome: truthy data and
a `complete` or `error` tag. -/
def SSEEvent.isTerminalHandled (ev : SSEEvent) : Bool :=
  ev.data.isTruthy && (ev.eventType == "complete" || ev.eventType == "error")

/-- A concrete stand-in for `JSON.parse` used in closed statements: parses
only the text `1`, fails on everything else. -/
def jsonParseEx : String → Option JVal :=
  fun s => if s = "1" then some (JVal.jnum 1) else none

/-! ## Frame buffer theorems -/

theorem splitFrames_frames_nil : ∀ {x : List Char}, (splitFrames x).1 = [] →
    (splitFrames x).2 = x := by
  intro x
  induction x using splitFrames.induct with
  | case1 => intro _; rfl
  | case2 c => intro _; rfl
  | case3 c d rest hnl ih =>
    intro h
    simp only [splitFrames, if_pos hnl] at h
    exact absurd h (List.cons_ne_nil _ _)
  | case4 c d rest hnl p hp ih =>
    intro _
    have hp' : (splitFrames (d :: rest)).1 = [] := hp
    have hsf : splitFrames (c :: d :: rest) = ([], c :: (splitFrames (d :: rest)).2) := by
      simp only [splitFrames, if_neg hnl, hp']
    rw [hsf]
    simp only [List.cons.injEq, true_and]
    exact ih hp'
  | case5 c d rest hnl p f fs hp ih =>
    intro h
    have hp' : (splitFrames (d :: rest)).1 = f :: fs := hp
    simp only [splitFrames, if_neg hnl, hp'] at h
    exact absurd h (List.cons_ne_nil _ _)

theorem splitFrames_append : ∀ (a b : List Char),
    splitFrames (a ++ b) =
      ((splitFrames a).1 ++ (splitFrames ((splitFrames a).2 ++ b)).1,
        (splitFrames ((splitFrames a).2 ++ b)).2) := by
  intro a
  induction a using splitFrames.induct with
  | case1 => intro b; simp [splitFrames]
  | case2 c => intro b; simp [splitFrames]
  | case3 c d rest hnl ih =>
    intro b
    have hstep : splitFrames (c :: d :: rest) =
        ([] :: (splitFrames rest).1, (splitFrames rest).2) := by
      simp only [splitFrames, if_pos hnl]
    have hstep' : splitFrames (c :: d :: (rest ++ b)) =
        ([] :: (splitFrames (rest ++ b)).1, (splitFrames (rest ++ b)).2) := by
      simp only [splitFrames, if_pos hnl]
    calc splitFrames ((c :: d :: rest) ++ b)
        = ([] :: (splitFrames (rest ++ b)).1, (splitFrames (rest ++ b)).2) := hstep'
      _ = _ := by rw [ih b, hstep]; simp
  | case4 c d rest hnl p hp ih =>
    intro b
    have hp' : (splitFrames (d :: rest)).1 = [] := hp
    -- frames of `d :: rest` are empty, so its remainder is the whole input
    have hrem : (splitFrames (d :: rest)).2 = d :: rest := splitFrames_frames_nil hp'
    have hsf : splitFrames (c :: d :: rest) = ([], c :: d :: rest) := by
      simp only [splitFrames, if_neg hnl, hp', hrem]
    rw [hsf]
    simp
  | case5 c d rest hnl p f fs hp ih =>
    intro b
    have hp' : (splitFrames (d :: rest)).1 = f :: fs := hp
    have hsf : splitFrames (c :: d :: rest) =
        ((c :: f) :: fs, (splitFrames (d :: rest)).2) := by
      simp only [splitFrames, if_neg hnl, hp']
    have e1 : splitFrames ((c :: d :: rest) ++ b) =
        match (splitFrames (d :: (rest ++ b))).1 with
        | [] => ([], c :: (splitFrames (d :: (rest ++ b))).2)
        | f' :: fs' => ((c :: f') :: fs', (splitFrames (d :: (rest ++ b))).2) := by
      show splitFrames (c :: d :: (rest ++ b)) = _
      simp only [splitFrames, if_neg hnl]
    have e2 : splitFrames (d :: (rest ++ b)) =
        (f :: (fs ++ (splitFrames ((splitFrames (d :: rest)).2 ++ b)).1),
          (splitFrames ((splitFrames (d :: rest)).2 ++ b)).2) := by
      show splitFrames ((d :: rest) ++ b) = _
      rw [ih b, hp']
      simp
    rw [e1, e2, hsf]
    simp

/-- The remainder kept by the splitter contains no complete frame. -/
theorem splitFrames_remainder_nil : ∀ (x : List Char),
    (splitFrames ((splitFrames x).2)).1 = [] := by
  intro x
  induction x using splitFrames.induct with
  | case1 => rfl
  | case2 c => rfl
  | case3 c d rest hnl ih =>
    have hsf : splitFrames (c :: d :: rest) =
        ([] :: (splitFrames rest).1, (splitFrames rest).2) := by
      simp only [splitFrames, if_pos hnl]
    rw [hsf]
    exact ih
  | case4 c d rest hnl p hp ih =>
    have hp' : (splitFrames (d :: rest)).1 = [] := hp
    have hrem : (splitFrames (d :: rest)).2 = d :: rest := splitFrames_frames_nil hp'
    have hsf : splitFrames (c :: d :: rest) = ([], c :: d :: rest) := by
      simp only [splitFrames, if_neg hnl, hp', hrem]
    rw [hsf]
    show (splitFrames (c :: d :: rest)).1 = []
    rw [hsf]
  | case5 c d rest hnl p f fs hp ih =>
    have hp' : (splitFrames (d :: rest)).1 = f :: fs := hp
    have hsf : splitFrames (c :: d :: rest) =
        ((c :: f) :: fs, (splitFrames (d :: rest)).2) := by
      simp only [splitFrames, if_neg hnl, hp']
    rw [hsf]
    exact ih

/-- Chunk-by-chunk processing from a frame-free buffer yields exactly the
complete frames of the whole stream. -/
theorem runChunks_eq : ∀ (chunks : List (List Char)) (buf : List Char),
    (splitFrames buf).1 = [] →
    runChunks buf chunks = (splitFrames (buf ++ chunks.flatten)).1 := by
  intro chunks
  induction chunks with
  | nil =>
    intro buf hbuf
    simp [runChunks, hbuf]
  | cons ch rest ih =>
    intro buf hbuf
    have hrem := splitFrames_remainder_nil (buf ++ ch)
    have hrec := ih (splitFrames (buf ++ ch)).2 hrem
    have happ := splitFrames_append (buf ++ ch) rest.flatten
    simp only [runChunks, hrec]
    rw [List.flatten_cons, ← List.append_assoc, happ]


/-- C5: for every underlying text stream and every way of splitting it into
successive chunks (including empty chunks), the frame buffer yields the same
ordered sequence of complete frames — the frames of the whole stream, each
the content between blank-line delimiters; a trailing partial frame is
carried across chunks, and the remainder left at end of stream (no trailing
delimiter) is discarded, never emitted. -/
theorem c5_frame_buffer_split_invariance (cs1 cs2 : List (List Char))
    (h : cs1.flatten = cs2.flatten) :
    runChunks [] cs1 = runChunks [] cs2 ∧
    runChunks [] cs1 = (splitFrames cs1.flatten).1 := by
  have h1 := runChunks_eq cs1 [] rfl
  have h2 := runChunks_eq cs2 [] rfl
  rw [List.nil_append] at h1 h2
  exact ⟨by rw [h1, h2, h], h1⟩

/-- Witness for C5 at two concrete chunkings of the stream
`"ab\n\ncd\n\nef"`, one with an empty chunk. -/
theorem c5_frame_buffer_split_invariance_witness :
    ["ab\n".data, "\ncd\n\n".data, ([] : List Char), "ef".data].flatten =
      ["ab".data, "\n\ncd".data, "\n\nef".data].flatten ∧
    (runChunks [] ["ab\n".data, "\ncd\n\n".data, ([] : List Char), "ef".data] =
        runChunks [] ["ab".data, "\n\ncd".data, "\n\nef".data] ∧
      runChunks [] ["ab\n".data, "\ncd\n\n".data, ([] : List Char), "ef".data] =
        (splitFrames (["ab\n".data, "\ncd\n\n".data, ([] : List Char),
          "ef".data].flatten)).1) :=
  ⟨by decide, c5_frame_buffer_split_invariance _ _ (by decide)⟩

/-! ## Helper lemmas on the page state machine -/

theorem foldl_append_str : ∀ (ds : List String) (a : String),
    ds.foldl (fun r s => r ++ s) a = a ++ String.join ds := by
  intro ds
  induction ds with
  | nil =>
    intro a
    show a = a ++ String.join []
    rw [show String.join [] = "" from rfl, String.append_empty]
  | cons d ds ih =>
    intro a
    show ds.foldl _ (a ++ d) = a ++ String.join (d :: ds)
    rw [ih (a ++ d)]
    have hj : String.join (d :: ds) = d ++ String.join ds := by
      show ds.foldl _ ("" ++ d) = _
      rw [ih ("" ++ d), String.empty_append]
    rw [hj, String.append_assoc]

theorem join_cons_str (d : String) (ds : List String) :
    String.join (d :: ds) = d ++ String.join ds := by
  show ds.foldl _ ("" ++ d) = _
  rw [foldl_append_str, String.empty_append]

theorem processEvents_nil (aid eid : String) (ph0 : JVal) (st : String × ClientState) :
    processEvents aid eid ph0 st [] = st := rfl

theorem processEvents_cons (aid eid : String) (ph0 : JVal) (st : String × ClientState)
    (ev : SSEEvent) (evs : List SSEEvent) :
    processEvents aid eid ph0 st (ev :: evs) =
      processEvents aid eid ph0 (processEvent aid eid ph0 st ev) evs := rfl

theorem processEvents_append (aid eid : String) (ph0 : JVal) (st : String × ClientState)
    (evs1 evs2 : List SSEEvent) :
    processEvents aid eid ph0 st (evs1 ++ evs2) =
      processEvents aid eid ph0 (processEvents aid eid ph0 st evs1) evs2 := by
  simp [processEvents, List.foldl_append]

theorem processEvent_falsy (aid eid : String) (ph0 : JVal) (st : String × ClientState)
    (ev : SSEEvent) (h : ev.data.isTruthy = false) :
    processEvent aid eid ph0 st ev = st := by
  unfold processEvent
  rw [h]
  simp

theorem processEvent_thinking (aid eid : String) (ph0 : JVal) (st : String × ClientState)
    (dv : JVal) :
    processEvent aid eid ph0 st { eventType := "thinking", data := dv } = st := by
  unfold processEvent
  by_cases h : dv.isTruthy = true
  · simp [h]
  · simp [Bool.eq_false_iff.mpr h]

theorem processEvent_token (aid eid : String) (ph0 : JVal) (st : String × ClientState)
    (dv : JVal) (h : dv.isTruthy = true) :
    processEvent aid eid ph0 st { eventType := "token", data := dv } =
      (st.1 ++ jsStr (dv.field "delta"),
        { st.2 with
          messages := tokenUpdate aid (st.1 ++ jsStr (dv.field "delta")) st.2.messages }) := by
  unfold processEvent
  simp [h]

theorem processEvent_complete (aid eid : String) (ph0 : JVal) (st : String × ClientState)
    (dv : JVal) (h : dv.isTruthy = true) :
    processEvent aid eid ph0 st { eventType := "complete", data := dv } =
      (st.1, completeUpdate aid ph0 dv st.2) := by
  unfold processEvent
  simp [h]

theorem processEvent_error (aid eid : String) (ph0 : JVal) (st : String × ClientState)
    (dv : JVal) (h : dv.isTruthy = true) :
    processEvent aid eid ph0 st { eventType := "error", data := dv } =
      (st.1, onErrorUpdate eid (dv.field "message") st.2) := by
  unfold processEvent
  simp [h]

/-- C10: an event whose data parsed to any falsy JSON value — not only
`null` but also `false`, `0` or the empty string — is dropped entirely: no
callback runs and neither the accumulated content nor the page state
changes; in particular an `error` event whose data is `false` produces no
terminal failure. -/
theorem c10_falsy_data_dropped (aid eid : String) (ph0 : JVal)
    (st : String × ClientState) (ev : SSEEvent) (h : ev.data.isTruthy = false) :
    processEvent aid eid ph0 st ev = st ∧
    (JVal.jnull.isTruthy = false ∧ (JVal.jbool false).isTruthy = false ∧
      (JVal.jnum 0).isTruthy = false ∧ (JVal.jstr "").isTruthy = false) :=
  ⟨processEvent_falsy aid eid ph0 st ev h, by decide⟩

/-- Witness for C10: an `error` event carrying the JSON value `false` leaves
the initial page state untouched. -/
theorem c10_falsy_data_dropped_witness :
    (SSEEvent.mk "error" (JVal.jbool false)).data.isTruthy = false ∧
    (processEvent "agent-1" "error-1" (JVal.jstr "user_intent") ("", initialState)
        (SSEEvent.mk "error" (JVal.jbool false)) = ("", initialState) ∧
      (JVal.jnull.isTruthy = false ∧ (JVal.jbool false).isTruthy = false ∧
        (JVal.jnum 0).isTruthy = false ∧ (JVal.jstr "").isTruthy = false)) :=
  ⟨by decide, c10_falsy_data_dropped "agent-1" "error-1" (JVal.jstr "user_intent")
    ("", initialState) (SSEEvent.mk "error" (JVal.jbool false)) (by decide)⟩

/-- A line that begins with the data tag cannot begin with the event tag. -/
theorem isPrefixOf_data_not_event (l : List Char)
    (h : "data: ".data.isPrefixOf l = true) :
    "event: ".data.isPrefixOf l = false := by
  cases l with
  | nil => exact absurd h (by decide)
  | cons c cs =>
    have h' : (('d' == c) && List.isPrefixOf "ata: ".data cs) = true := h
    have hc : c = 'd' := (beq_iff_eq.mp (Bool.and_elim_left h')).symm
    subst hc
    show (('e' == 'd') && List.isPrefixOf "vent: ".data cs) = false
    rw [show (('e' == 'd') : Bool) = false from by decide, Bool.false_and]

/-- C7 counterexample: frame `event: token / data: 1 / data: @` where `@`
fails to parse. The claim says the last data line wins with `data = null`
for the failing line; the decoder instead keeps the parse result of the
earlier data line, so `data = 1 ≠ null` (the claimed value). -/
theorem c7_counterexample :
    jsonParseEx "@" = none ∧
    (decodeFrame jsonParseEx
        ["event: token".data, "data: 1".data, "data: @".data]).eventType = "token" ∧
    (decodeFrame jsonParseEx
        ["event: token".data, "data: 1".data, "data: @".data]).data = JVal.jnum 1 ∧
    (decodeFrame jsonParseEx
        ["event: token".data, "data: 1".data, "data: @".data]).data ≠ JVal.jnull := by
  refine ⟨by decide, by decide, by decide, by decide⟩

/-- C7 (amended): the decoder returns the `eventType` found on the event-tag
line even when a data line fails to parse, and never raises; with several
data lines the last successfully parsed one wins: a data line whose payload
parses replaces `data` with its parse result, and one whose payload fails to
parse leaves the decoded event unchanged — `data` keeps its previous value
(`null` only if no earlier data line parsed). -/
theorem c7_decoder_last_successful_data_wins (jp : String → Option JVal)
    (lines : List (List Char)) (l : List Char)
    (hdata : "data: ".data.isPrefixOf l = true) :
    decodeFrame jp (lines ++ [l]) =
      (match jp (String.mk (l.drop 6)) with
        | some v => { decodeFrame jp lines with data := v }
        | none => decodeFrame jp lines) ∧
    (decodeFrame jp (lines ++ [l])).eventType = (decodeFrame jp lines).eventType := by
  have hne : "event: ".data.isPrefixOf l = false := isPrefixOf_data_not_event l hdata
  have hstep : decodeFrame jp (lines ++ [l]) = decodeStep jp (decodeFrame jp lines) l := by
    unfold decodeFrame
    rw [List.foldl_append]
    rfl
  have hds : decodeStep jp (decodeFrame jp lines) l =
      (match jp (String.mk (l.drop 6)) with
        | some v => { decodeFrame jp lines with data := v }
        | none => decodeFrame jp lines) := by
    unfold decodeStep
    rw [hne, hdata]
    cases jp (String.mk (l.drop 6)) <;> simp
  refine ⟨hstep.trans hds, ?_⟩
  rw [hstep, hds]
  cases jp (String.mk (l.drop 6)) <;> rfl

/-- Witness for C7 (amended) at the concrete frame of the counterexample. -/
theorem c7_decoder_last_successful_data_wins_witness :
    "data: ".data.isPrefixOf "data: @".data = true ∧
    (decodeFrame jsonParseEx
        (["event: token".data, "data: 1".data] ++ ["data: @".data]) =
      (match jsonParseEx (String.mk ("data: @".data.drop 6)) with
        | some v =>
          { decodeFrame jsonParseEx ["event: token".data, "data: 1".data] with data := v }
        | none => decodeFrame jsonParseEx ["event: token".data, "data: 1".data]) ∧
    (decodeFrame jsonParseEx
        (["event: token".data, "data: 1".data] ++ ["data: @".data])).eventType =
      (decodeFrame jsonParseEx ["event: token".data, "data: 1".data]).eventType) :=
  ⟨by decide, c7_decoder_last_successful_data_wins jsonParseEx
    ["event: token".data, "data: 1".data] "data: @".data (by decide)⟩

/-- C6 counterexample: after a decoded `error` event, a later `token` event
of the same stream is still processed — the accumulated content becomes
`"X"` (the claim requires it to stay empty) and two messages are appended
(the system error message and the still-growing agent message). -/
theorem c6_counterexample :
    (processEvents "agent-1" "error-1" (JVal.jstr "user_intent") ("", initialState)
        [SSEEvent.mk "error" (JVal.jobj (JFields.cons "message" (JVal.jstr "boom") JFields.nil)),
         tokenEv "X"]).1 = "X" ∧
    ("X" : String) ≠ "" ∧
    (processEvents "agent-1" "error-1" (JVal.jstr "user_intent") ("", initialState)
        [SSEEvent.mk "error" (JVal.jobj (JFields.cons "message" (JVal.jstr "boom") JFields.nil)),
         tokenEv "X"]).2.messages.length = initialState.messages.length + 2 := by
  refine ⟨by decide, by decide, by decide⟩

/-- C6 (amended): after an `error` event is decoded, the client records the
terminal failure (one system message, banner set, loading cleared) but does
not stop: the remaining events are processed exactly as if they followed
that failure state, and a subsequent `token` event still appends its delta
to the accumulated content. -/
theorem c6_error_does_not_halt_stream (aid eid : String) (ph0 : JVal)
    (st : String × ClientState) (e : JVal) (evs : List SSEEvent)
    (he : e.isTruthy = true) :
    processEvents aid eid ph0 st (SSEEvent.mk "error" e :: evs) =
      processEvents aid eid ph0 (st.1, onErrorUpdate eid (e.field "message") st.2) evs ∧
    ∀ d : String,
      (processEvents aid eid ph0 st [SSEEvent.mk "error" e, tokenEv d]).1 = st.1 ++ d := by
  constructor
  · rw [processEvents_cons, processEvent_error _ _ _ _ _ he]
  · intro d
    rw [processEvents_cons, processEvent_error _ _ _ _ _ he, processEvents_cons]
    rw [show tokenEv d =
      SSEEvent.mk "token" (JVal.jobj (JFields.cons "delta" (JVal.jstr d) JFields.nil)) from rfl]
    rw [processEvent_token aid eid ph0 _
      (JVal.jobj (JFields.cons "delta" (JVal.jstr d) JFields.nil)) rfl]
    rfl

/-- Witness for C6 (amended) at the concrete error payload `{"message":
"boom"}`. -/
theorem c6_error_does_not_halt_stream_witness :
    (JVal.jobj (JFields.cons "message" (JVal.jstr "boom") JFields.nil)).isTruthy = true ∧
    (processEvents "agent-1" "error-1" (JVal.jstr "user_intent") ("", initialState)
        (SSEEvent.mk "error"
          (JVal.jobj (JFields.cons "message" (JVal.jstr "boom") JFields.nil)) :: [tokenEv "X"]) =
      processEvents "agent-1" "error-1" (JVal.jstr "user_intent")
        ("", onErrorUpdate "error-1"
          ((JVal.jobj (JFields.cons "message" (JVal.jstr "boom") JFields.nil)).field "message")
          initialState) [tokenEv "X"] ∧
    ∀ d : String,
      (processEvents "agent-1" "error-1" (JVal.jstr "user_intent") ("", initialState)
        [SSEEvent.mk "error"
          (JVal.jobj (JFields.cons "message" (JVal.jstr "boom") JFields.nil)),
         tokenEv d]).1 = "" ++ d) :=
  ⟨by decide, c6_error_does_not_halt_stream "agent-1" "error-1" (JVal.jstr "user_intent")
    ("", initialState) (JVal.jobj (JFields.cons "message" (JVal.jstr "boom") JFields.nil))
    [tokenEv "X"] (by decide)⟩

theorem map_if_id_eq (aid : String) (base : List ChatMessage)
    (h : base.any (fun m => m.id == aid) = false) (f : ChatMessage → ChatMessage) :
    base.map (fun m => if m.id == aid then f m else m) = base := by
  induction base with
  | nil => rfl
  | cons m ms ih =>
    simp only [List.any_cons, Bool.or_eq_false_iff] at h
    obtain ⟨h1, h2⟩ := h
    simp only [List.map_cons, h1, if_false, Bool.false_eq_true, ih h2]

theorem tokenUpdate_fresh (aid c : String) (msgs : List ChatMessage)
    (h : msgs.any (fun m => m.id == aid) = false) :
    tokenUpdate aid c msgs = msgs ++ [mkAgentMsg aid c] := by
  unfold tokenUpdate
  rw [h]
  rfl

theorem tokenUpdate_existing (aid c old : String) (base : List ChatMessage)
    (h : base.any (fun m => m.id == aid) = false) :
    tokenUpdate aid c (base ++ [mkAgentMsg aid old]) = base ++ [mkAgentMsg aid c] := by
  unfold tokenUpdate
  have hany : ((base ++ [mkAgentMsg aid old]).any (fun m => m.id == aid)) = true := by
    simp [List.any_append, mkAgentMsg]
  rw [hany]
  show (base ++ [mkAgentMsg aid old]).map _ = _
  rw [List.map_append, map_if_id_eq aid base h]
  congr 1
  simp [mkAgentMsg]

theorem processEvents_tokens (aid eid : String) (ph0 : JVal) :
    ∀ (ds : List String) (acc : String) (s : ClientState) (base : List ChatMessage),
    base.any (fun m => m.id == aid) = false →
    s.messages = base ++ [mkAgentMsg aid acc] →
    processEvents aid eid ph0 (acc, s) (ds.map tokenEv) =
      (acc ++ String.join ds,
        { s with messages := base ++ [mkAgentMsg aid (acc ++ String.join ds)] }) := by
  intro ds
  induction ds with
  | nil =>
    intro acc s base hb hm
    show (acc, s) = _
    rw [show String.join [] = "" from rfl, String.append_empty, ← hm]
  | cons d ds ih =>
    intro acc s base hb hm
    rw [List.map_cons, processEvents_cons]
    rw [show tokenEv d =
      SSEEvent.mk "token" (JVal.jobj (JFields.cons "delta" (JVal.jstr d) JFields.nil)) from rfl]
    rw [processEvent_token aid eid ph0 (acc, s)
      (JVal.jobj (JFields.cons "delta" (JVal.jstr d) JFields.nil)) rfl]
    have hdelta : jsStr ((JVal.jobj (JFields.cons "delta" (JVal.jstr d)
      JFields.nil)).field "delta") = d := rfl
    rw [hdelta]
    show processEvents aid eid ph0
      (acc ++ d, { s with messages := tokenUpdate aid (acc ++ d) s.messages }) _ = _
    rw [hm, tokenUpdate_existing aid (acc ++ d) acc base hb]
    rw [ih (acc ++ d) _ base hb rfl]
    rw [join_cons_str, ← String.append_assoc]

/-- C4 counterexample: a stream consisting of a single `complete` event
`{"message": "X"}` with no prior `token` event. The claim requires the final
agent message content to become `"X"`, but `onComplete` only maps over
existing message ids and never creates the agent message (only `onToken`
does), so the message list is completely unchanged: no message of the
exchange exists and nothing carries `"X"`. -/
theorem c4_counterexample :
    (processEvents "agent-1" "error-1" (JVal.jstr "user_intent") ("", initialState)
        [SSEEvent.mk "complete"
          (JVal.jobj (JFields.cons "message" (JVal.jstr "X") JFields.nil))]).2.messages =
      initialState.messages ∧
    initialState.messages.any (fun m => m.id == "agent-1") = false ∧
    initialState.messages.any (fun m => m.content == some (JVal.jstr "X")) = false := by
  refine ⟨by decide, by decide, by decide⟩

/-- C4 (amended): for every sequence of `token` events before a `complete`
event, the accumulated content is the concatenation of their `delta` fields
in arrival order, and the growing agent message carries exactly that
concatenation; on `complete`, IF at least one token event created the agent
message, its content becomes the payload's own `message` field — whatever
it is — rather than the locally accumulated buffer; with zero prior token
events `onComplete` creates nothing (it only maps existing ids) and the
message list is unchanged, so the payload's message is never displayed. -/
theorem c4_token_concatenation_and_complete_wins
    (aid eid : String) (ph0 : JVal) (s : ClientState)
    (d : String) (ds : List String) (resp : JVal)
    (hfresh : s.messages.any (fun m => m.id == aid) = false)
    (htr : resp.isTruthy = true) :
    processEvents aid eid ph0 ("", s) ((d :: ds).map tokenEv) =
      (String.join (d :: ds),
        { s with messages := s.messages ++ [mkAgentMsg aid (String.join (d :: ds))] }) ∧
    (processEvent aid eid ph0
        (processEvents aid eid ph0 ("", s) ((d :: ds).map tokenEv))
        (SSEEvent.mk "complete" resp)).2.messages =
      s.messages ++ [ChatMessage.mk aid Role.agent (resp.field "message") (some resp)] ∧
    (processEvent aid eid ph0 ("", s) (SSEEvent.mk "complete" resp)).2.messages =
      s.messages := by
  have h1 : processEvents aid eid ph0 ("", s) ((d :: ds).map tokenEv) =
      (String.join (d :: ds),
        { s with messages := s.messages ++ [mkAgentMsg aid (String.join (d :: ds))] }) := by
    rw [List.map_cons, processEvents_cons]
    rw [show tokenEv d =
      SSEEvent.mk "token" (JVal.jobj (JFields.cons "delta" (JVal.jstr d) JFields.nil)) from rfl]
    rw [processEvent_token aid eid ph0 ("", s)
      (JVal.jobj (JFields.cons "delta" (JVal.jstr d) JFields.nil)) rfl]
    have hdelta : jsStr ((JVal.jobj (JFields.cons "delta" (JVal.jstr d)
      JFields.nil)).field "delta") = d := rfl
    rw [hdelta]
    show processEvents aid eid ph0
      ("" ++ d, { s with messages := tokenUpdate aid ("" ++ d) s.messages }) _ = _
    rw [String.empty_append, tokenUpdate_fresh aid d s.messages hfresh]
    rw [processEvents_tokens aid eid ph0 ds d _ s.messages hfresh rfl]
    rw [join_cons_str]
  refine ⟨h1, ?_, ?_⟩
  · rw [h1, processEvent_complete aid eid ph0 _ resp htr]
    show (completeUpdate aid ph0 resp _).messages = _
    unfold completeUpdate
    show (s.messages ++ [mkAgentMsg aid (String.join (d :: ds))]).map _ = _
    rw [List.map_append, map_if_id_eq aid s.messages hfresh]
    congr 1
    simp [mkAgentMsg]
  · rw [processEvent_complete aid eid ph0 ("", s) resp htr]
    show (completeUpdate aid ph0 resp s).messages = s.messages
    unfold completeUpdate
    show s.messages.map _ = s.messages
    exact map_if_id_eq aid s.messages hfresh _

/-- Witness for C4 (amended): deltas `"abc"`, `"def"` accumulate to
`"abcdef"`, the `complete` payload `{"message": "X"}` overrides the buffer
with `"X"`, and the same `complete` with no prior token leaves the message
list unchanged. -/
theorem c4_token_concatenation_and_complete_wins_witness :
    initialState.messages.any (fun m => m.id == "agent-1") = false ∧
    (JVal.jobj (JFields.cons "message" (JVal.jstr "X") JFields.nil)).isTruthy = true ∧
    (processEvents "agent-1" "error-1" (JVal.jstr "user_intent") ("", initialState)
        (["abc", "def"].map tokenEv) =
      (String.join ["abc", "def"],
        { initialState with messages := initialState.messages ++
            [mkAgentMsg "agent-1" (String.join ["abc", "def"])] }) ∧
    (processEvent "agent-1" "error-1" (JVal.jstr "user_intent")
        (processEvents "agent-1" "error-1" (JVal.jstr "user_intent") ("", initialState)
          (["abc", "def"].map tokenEv))
        (SSEEvent.mk "complete"
          (JVal.jobj (JFields.cons "message" (JVal.jstr "X") JFields.nil)))).2.messages =
      initialState.messages ++ [ChatMessage.mk "agent-1" Role.agent
        ((JVal.jobj (JFields.cons "message" (JVal.jstr "X") JFields.nil)).field "message")
        (some (JVal.jobj (JFields.cons "message" (JVal.jstr "X") JFields.nil)))] ∧
    (processEvent "agent-1" "error-1" (JVal.jstr "user_intent") ("", initialState)
        (SSEEvent.mk "complete"
          (JVal.jobj (JFields.cons "message" (JVal.jstr "X") JFields.nil)))).2.messages =
      initialState.messages) :=
  ⟨by decide, by decide, c4_token_concatenation_and_complete_wins "agent-1" "error-1"
    (JVal.jstr "user_intent") initialState "abc" ["def"]
    (JVal.jobj (JFields.cons "message" (JVal.jstr "X") JFields.nil)) (by decide) (by decide)⟩

theorem countSys_append (a b : List ChatMessage) :
    countSys (a ++ b) = countSys a + countSys b := by
  simp [countSys, List.countP_append]

theorem countSys_map (f : ChatMessage → ChatMessage) (hf : ∀ m, (f m).role = m.role) :
    ∀ msgs : List ChatMessage, countSys (msgs.map f) = countSys msgs := by
  intro msgs
  induction msgs with
  | nil => rfl
  | cons m ms ih =>
    simp only [List.map_cons, countSys, List.countP_cons] at ih ⊢
    rw [ih, hf]

theorem countSys_tokenUpdate (aid c : String) (msgs : List ChatMessage) :
    countSys (tokenUpdate aid c msgs) = countSys msgs := by
  unfold tokenUpdate
  split
  · exact countSys_map _ (fun m => by split <;> rfl) msgs
  · rw [countSys_append]
    rfl

theorem processEvent_nonterminal (aid eid : String) (ph0 : JVal)
    (st : String × ClientState) (ev : SSEEvent) (h : ev.isTerminalHandled = false) :
    (processEvent aid eid ph0 st ev).2 =
      { st.2 with messages := (processEvent aid eid ph0 st ev).2.messages } ∧
    countSys (processEvent aid eid ph0 st ev).2.messages = countSys st.2.messages := by
  by_cases ht : ev.data.isTruthy = true
  · have hty : (ev.eventType == "complete") = false ∧ (ev.eventType == "error") = false := by
      unfold SSEEvent.isTerminalHandled at h
      rw [ht, Bool.true_and] at h
      exact Bool.or_eq_false_iff.mp h
    obtain ⟨hc, he⟩ := hty
    by_cases h1 : (ev.eventType == "thinking") = true
    · unfold processEvent
      simp [ht, h1]
    · by_cases h2 : (ev.eventType == "token") = true
      · unfold processEvent
        simp only [ht, if_true, Bool.not_eq_true] at *
        simp only [h1, h2, if_true, Bool.false_eq_true, if_false]
        exact ⟨trivial, countSys_tokenUpdate _ _ _⟩
      · unfold processEvent
        simp only [ht, if_true]
        simp only [Bool.not_eq_true] at h1 h2
        simp only [h1, h2, hc, he, Bool.false_eq_true, if_false]
        exact ⟨trivial, trivial⟩
  · have ht' : ev.data.isTruthy = false := Bool.not_eq_true _ ▸ Bool.eq_false_iff.mpr ht
    rw [processEvent_falsy _ _ _ _ _ ht']
    exact ⟨rfl, rfl⟩

theorem processEvents_nonterminal (aid eid : String) (ph0 : JVal) :
    ∀ (evs : List SSEEvent) (st : String × ClientState),
    (∀ ev ∈ evs, ev.isTerminalHandled = false) →
    (processEvents aid eid ph0 st evs).2 =
      { st.2 with messages := (processEvents aid eid ph0 st evs).2.messages } ∧
    countSys (processEvents aid eid ph0 st evs).2.messages = countSys st.2.messages := by
  intro evs
  induction evs with
  | nil => intro st _; exact ⟨rfl, rfl⟩
  | cons ev evs ih =>
    intro st h
    rw [processEvents_cons]
    have h1 := processEvent_nonterminal aid eid ph0 st ev (h ev (List.mem_cons_self _ _))
    have h2 := ih (processEvent aid eid ph0 st ev) (fun e he => h e (List.mem_cons_of_mem _ he))
    refine ⟨?_, by rw [h2.2, h1.2]⟩
    calc (processEvents aid eid ph0 (processEvent aid eid ph0 st ev) evs).2
        = { (processEvent aid eid ph0 st ev).2 with
            messages := (processEvents aid eid ph0 (processEvent aid eid ph0 st ev) evs).2.messages } :=
          h2.1
      _ = _ := by rw [h1.1]

theorem handleRetry_replays (ids2 : Ids) (r : ClientState) (text : String)
    (action : Option String) (bn2 : BuildNet) (qn2 : QueryNet)
    (hr : r.lastSend = some (text, action)) (ht : ¬text = "") :
    handleRetry ids2 r bn2 qn2 = handleSend ids2 { r with error := none } text action bn2 qn2 := by
  unfold handleRetry
  rw [hr]
  simp [ht]

theorem countSys_sendStart (uid : String) (s : ClientState) (text : String)
    (action : Option String) :
    countSys (sendStart uid s text action).messages = countSys s.messages := by
  show countSys (s.messages ++ [mkUserMsg uid text]) = countSys s.messages
  rw [countSys_append]
  rfl

/-- C2: every terminal failure of an exchange — in build mode a transport
failure before the stream, a transport failure mid-stream, or a
backend-declared `error` event; in query mode a transport failure of the
`queryGraph` call — appends exactly one system-role message, leaves session
state, phase and checkpoint exactly as before the exchange (no partial
merge), ends with the in-flight flag cleared, and records `{text, action}`
so that `handleRetry` replays the identical pair; `handleRetry` dispatches
nothing when no prior attempt exists. -/
theorem c2_terminal_failure_one_system_message
    (ids ids2 : Ids) (s : ClientState) (text : String) (action : Option String)
    (m : String) (evs : List SSEEvent) (e : JVal) (fail : BuildNet)
    (bn2 : BuildNet) (qn qn2 : QueryNet)
    (htext : ¬trimChars text.data = [])
    (hload : s.isLoading = false)
    (hevs : ∀ ev ∈ evs, ev.isTerminalHandled = false)
    (he : e.isTruthy = true)
    (hfail : (s.mode = "build" ∧
        (fail = BuildNet.pre m ∨ fail = BuildNet.stream evs (some m) ∨
          fail = BuildNet.stream (evs ++ [SSEEvent.mk "error" e]) none)) ∨
      (¬s.mode = "build" ∧ qn = QueryNet.err m)) :
    (countSys (handleSend ids s text action fail qn).messages = countSys s.messages + 1 ∧
      (handleSend ids s text action fail qn).sessionState = s.sessionState ∧
      (handleSend ids s text action fail qn).currentPhase = s.currentPhase ∧
      (handleSend ids s text action fail qn).checkpointData = s.checkpointData ∧
      (handleSend ids s text action fail qn).isLoading = false ∧
      (handleSend ids s text action fail qn).lastSend = some (text, action) ∧
      handleRetry ids2 (handleSend ids s text action fail qn) bn2 qn2 =
        handleSend ids2 { handleSend ids s text action fail qn with error := none }
          text action bn2 qn2) ∧
    (∀ s' : ClientState, s'.lastSend = none →
      handleRetry ids2 s' bn2 qn2 = { s' with error := none } ∧
      (s'.error = none → handleRetry ids2 s' bn2 qn2 = s')) := by
  have hguard : ¬(trimChars text.data = [] ∨ s.isLoading = true) := by
    rintro (h | h)
    · exact htext h
    · rw [hload] at h
      exact Bool.false_ne_true h
  have htne : ¬text = "" := by
    intro hq
    exact htext (by rw [hq]; rfl)
  have hnoop : ∀ s' : ClientState, s'.lastSend = none →
      handleRetry ids2 s' bn2 qn2 = { s' with error := none } ∧
      (s'.error = none → handleRetry ids2 s' bn2 qn2 = s') := by
    intro s' h
    have h1 : handleRetry ids2 s' bn2 qn2 = { s' with error := none } := by
      unfold handleRetry
      rw [h]
    refine ⟨h1, fun herr => ?_⟩
    rw [h1, ← herr]
  have hmid := processEvents_nonterminal ids.aid ids.eid s.currentPhase evs
    ("", sendStart ids.uid s text action) hevs
  have hP : ∀ r : ClientState,
      r.lastSend = some (text, action) →
      handleRetry ids2 r bn2 qn2 =
        handleSend ids2 { r with error := none } text action bn2 qn2 :=
    fun r hr => handleRetry_replays ids2 r text action bn2 qn2 hr htne
  rcases hfail with ⟨hmode, hf⟩ | ⟨hmode, hqn⟩
  · have hpre : handleSend ids s text action (BuildNet.pre m) qn =
        catchUpdate ids.eid m (sendStart ids.uid s text action) := by
      unfold handleSend
      rw [if_neg hguard, hmode]
      rfl
    have hstream : ∀ (evs' : List SSEEvent) (crash : Option String),
        handleSend ids s text action (BuildNet.stream evs' crash) qn =
        (match crash with
          | some mm => onErrorUpdate ids.eid (some (JVal.jstr mm))
              (processEvents ids.aid ids.eid s.currentPhase
                ("", sendStart ids.uid s text action) evs').2
          | none => (processEvents ids.aid ids.eid s.currentPhase
              ("", sendStart ids.uid s text action) evs').2) := by
      intro evs' crash
      unfold handleSend
      rw [if_neg hguard, hmode]
      rfl
    rcases hf with hf | hf | hf
    · subst hf
      rw [hpre]
      refine ⟨⟨?_, rfl, rfl, rfl, rfl, rfl, hP _ rfl⟩, hnoop⟩
      show countSys ((sendStart ids.uid s text action).messages ++ [mkErrorMsg ids.eid _]) = _
      rw [countSys_append, countSys_sendStart]
      rfl
    · subst hf
      have hcase : handleSend ids s text action (BuildNet.stream evs (some m)) qn =
          onErrorUpdate ids.eid (some (JVal.jstr m))
            { sendStart ids.uid s text action with
              messages := (processEvents ids.aid ids.eid s.currentPhase
                ("", sendStart ids.uid s text action) evs).2.messages } := by
        rw [hstream evs (some m)]
        show onErrorUpdate ids.eid (some (JVal.jstr m)) _ = _
        rw [← hmid.1]
      rw [hcase]
      refine ⟨⟨?_, rfl, rfl, rfl, rfl, rfl, hP _ rfl⟩, hnoop⟩
      show countSys ((processEvents ids.aid ids.eid s.currentPhase
        ("", sendStart ids.uid s text action) evs).2.messages ++ [mkErrorMsg ids.eid m]) =
        countSys s.messages + 1
      rw [countSys_append, hmid.2]
      show countSys (sendStart ids.uid s text action).messages +
        countSys [mkErrorMsg ids.eid m] = countSys s.messages + 1
      rw [countSys_sendStart]
      rfl
    · subst hf
      have hsingle : processEvents ids.aid ids.eid s.currentPhase
          (processEvents ids.aid ids.eid s.currentPhase
            ("", sendStart ids.uid s text action) evs) [SSEEvent.mk "error" e] =
          ((processEvents ids.aid ids.eid s.currentPhase
              ("", sendStart ids.uid s text action) evs).1,
            onErrorUpdate ids.eid (e.field "message")
              (processEvents ids.aid ids.eid s.currentPhase
                ("", sendStart ids.uid s text action) evs).2) := by
        rw [processEvents_cons, processEvent_error _ _ _ _ _ he, processEvents_nil]
      have hcase : handleSend ids s text action
          (BuildNet.stream (evs ++ [SSEEvent.mk "error" e]) none) qn =
          onErrorUpdate ids.eid (e.field "message")
            { sendStart ids.uid s text action with
              messages := (processEvents ids.aid ids.eid s.currentPhase
                ("", sendStart ids.uid s text action) evs).2.messages } := by
        rw [hstream (evs ++ [SSEEvent.mk "error" e]) none]
        show (processEvents ids.aid ids.eid s.currentPhase
          ("", sendStart ids.uid s text action) (evs ++ [SSEEvent.mk "error" e])).2 = _
        rw [processEvents_append, hsingle]
        show onErrorUpdate ids.eid (e.field "message") _ = _
        rw [← hmid.1]
      rw [hcase]
      refine ⟨⟨?_, rfl, rfl, rfl, rfl, rfl, hP _ rfl⟩, hnoop⟩
      show countSys ((processEvents ids.aid ids.eid s.currentPhase
        ("", sendStart ids.uid s text action) evs).2.messages ++
          [mkErrorMsg ids.eid (jsStr (e.field "message"))]) = countSys s.messages + 1
      rw [countSys_append, hmid.2]
      show countSys (sendStart ids.uid s text action).messages +
        countSys [mkErrorMsg ids.eid (jsStr (e.field "message"))] = countSys s.messages + 1
      rw [countSys_sendStart]
      rfl
  · subst hqn
    have hm : (s.mode == "build") = false := by
      cases hq : (s.mode == "build")
      · rfl
      · exact absurd (eq_of_beq hq) hmode
    have hquery : handleSend ids s text action fail (QueryNet.err m) =
        catchUpdate ids.eid m (sendStart ids.uid s text action) := by
      unfold handleSend
      rw [if_neg hguard]
      simp only [hm, Bool.false_eq_true, if_false]
    rw [hquery]
    refine ⟨⟨?_, rfl, rfl, rfl, rfl, rfl, hP _ rfl⟩, hnoop⟩
    show countSys ((sendStart ids.uid s text action).messages ++ [mkErrorMsg ids.eid _]) = _
    rw [countSys_append, countSys_sendStart]
    rfl

/-- Witness for C2 at two concrete transport failures of
`send("hi", "approve")`: a pre-stream failure in build mode from the
initial state, and a `queryGraph` failure in query mode. -/
theorem c2_terminal_failure_one_system_message_witness :
    (¬trimChars "hi".data = []) ∧
    countSys (handleSend (Ids.mk "u1" "a1" "e1" "q1") initialState "hi" (some "approve")
        (BuildNet.pre "boom") (QueryNet.err "q")).messages =
      countSys initialState.messages + 1 ∧
    (handleSend (Ids.mk "u1" "a1" "e1" "q1") initialState "hi" (some "approve")
        (BuildNet.pre "boom") (QueryNet.err "q")).sessionState = initialState.sessionState ∧
    (handleSend (Ids.mk "u1" "a1" "e1" "q1") initialState "hi" (some "approve")
        (BuildNet.pre "boom") (QueryNet.err "q")).lastSend = some ("hi", some "approve") ∧
    countSys (handleSend (Ids.mk "u1" "a1" "e1" "q1")
        { initialState with mode := "query" } "hi" (some "approve")
        (BuildNet.pre "unused") (QueryNet.err "boom")).messages =
      countSys ({ initialState with mode := "query" } : ClientState).messages + 1 ∧
    (handleSend (Ids.mk "u1" "a1" "e1" "q1") { initialState with mode := "query" } "hi"
        (some "approve") (BuildNet.pre "unused") (QueryNet.err "boom")).sessionState =
      ({ initialState with mode := "query" } : ClientState).sessionState := by
  have h := c2_terminal_failure_one_system_message (Ids.mk "u1" "a1" "e1" "q1")
    (Ids.mk "u2" "a2" "e2" "q2") initialState "hi" (some "approve") "boom" []
    (JVal.jobj (JFields.cons "message" (JVal.jstr "bad") JFields.nil))
    (BuildNet.pre "boom") (BuildNet.pre "x") (QueryNet.err "q") (QueryNet.err "q")
    (by decide) (by decide) (by decide) (by decide) (Or.inl ⟨rfl, Or.inl rfl⟩)
  have hq := c2_terminal_failure_one_system_message (Ids.mk "u1" "a1" "e1" "q1")
    (Ids.mk "u2" "a2" "e2" "q2") { initialState with mode := "query" } "hi" (some "approve")
    "boom" [] (JVal.jobj (JFields.cons "message" (JVal.jstr "bad") JFields.nil))
    (BuildNet.pre "unused") (BuildNet.pre "x") (QueryNet.err "boom") (QueryNet.err "q")
    (by decide) (by decide) (by decide) (by decide) (Or.inr ⟨by decide, rfl⟩)
  exact ⟨by decide, h.1.1, h.1.2.1, h.1.2.2.2.2.2.1, hq.1.1, hq.1.2.1⟩

/-- C3: the code does not treat a stream that ends without a `complete` or
`error` event as a failure: `handleSend` on such a stream leaves the
in-flight flag set (stuck loading), appends no system message and raises no
banner — only the user message was added — whereas a mid-stream exception
does clear the flag. Evaluated at the failing input. -/
theorem c3_stream_end_without_terminal_sticks_loading :
    (handleSend (Ids.mk "user-1" "agent-1" "error-1" "query-1") initialState "hi" none
        (BuildNet.stream [] none) (QueryNet.err "unused")).isLoading = true ∧
    (handleSend (Ids.mk "user-1" "agent-1" "error-1" "query-1") initialState "hi" none
        (BuildNet.stream [] none) (QueryNet.err "unused")).error = none ∧
    (handleSend (Ids.mk "user-1" "agent-1" "error-1" "query-1") initialState "hi" none
        (BuildNet.stream [] none) (QueryNet.err "unused")).messages =
      initialState.messages ++ [mkUserMsg "user-1" "hi"] ∧
    countSys (handleSend (Ids.mk "user-1" "agent-1" "error-1" "query-1") initialState "hi" none
        (BuildNet.stream [] none) (QueryNet.err "unused")).messages =
      countSys initialState.messages ∧
    (handleSend (Ids.mk "user-1" "agent-1" "error-1" "query-1") initialState "hi" none
        (BuildNet.stream [] (some "network error")) (QueryNet.err "unused")).isLoading = false := by
  refine ⟨by decide, by decide, by decide, by decide, by decide⟩

theorem processEvent_phase (aid eid : String) (ph0 : JVal) (st : String × ClientState)
    (ev : SSEEvent) :
    (processEvent aid eid ph0 st ev).2.currentPhase = st.2.currentPhase ∨
    (ev.eventType = "complete" ∧ ev.data.isTruthy = true ∧
      ev.data.field "phase" = some (processEvent aid eid ph0 st ev).2.currentPhase ∧
      (processEvent aid eid ph0 st ev).2.currentPhase.isTruthy = true) := by
  by_cases ht : ev.data.isTruthy = true
  · by_cases h1 : (ev.eventType == "thinking") = true
    · left
      unfold processEvent
      simp [ht, h1]
    · by_cases h2 : (ev.eventType == "token") = true
      · left
        unfold processEvent
        simp [ht, h1, h2]
      · by_cases h3 : (ev.eventType == "complete") = true
        · have hev : processEvent aid eid ph0 st ev =
              (st.1, completeUpdate aid ph0 ev.data st.2) := by
            unfold processEvent
            simp [ht, h1, h2, h3]
          rw [hev]
          have hval : (st.1, completeUpdate aid ph0 ev.data st.2).2.currentPhase =
              (match ev.data.field "phase" with
                | some pv => if pv.isTruthy = true ∧ ¬pv = ph0 then pv else st.2.currentPhase
                | none => st.2.currentPhase) := rfl
          rw [hval]
          cases hf : ev.data.field "phase" with
          | none => left; simp only [hf]
          | some pv =>
            simp only [hf]
            by_cases hc : pv.isTruthy = true ∧ ¬pv = ph0
            · rw [if_pos hc]
              right
              exact ⟨eq_of_beq h3, ht, rfl, hc.1⟩
            · rw [if_neg hc]
              left
              rfl
        · left
          unfold processEvent
          by_cases h4 : (ev.eventType == "error") = true
          · simp [ht, h1, h2, h3, h4, onErrorUpdate]
          · simp [ht, h1, h2, h3, h4]
  · left
    rw [processEvent_falsy _ _ _ _ _ (Bool.not_eq_true _ ▸ Bool.eq_false_iff.mpr ht)]

theorem processEvents_phase (aid eid : String) (ph0 : JVal) :
    ∀ (evs : List SSEEvent) (st : String × ClientState),
    (processEvents aid eid ph0 st evs).2.currentPhase = st.2.currentPhase ∨
    ∃ ev ∈ evs, ev.eventType = "complete" ∧ ev.data.isTruthy = true ∧
      ev.data.field "phase" = some (processEvents aid eid ph0 st evs).2.currentPhase ∧
      (processEvents aid eid ph0 st evs).2.currentPhase.isTruthy = true := by
  intro evs
  induction evs with
  | nil => intro st; left; rfl
  | cons ev evs ih =>
    intro st
    rw [processEvents_cons]
    rcases ih (processEvent aid eid ph0 st ev) with h | ⟨ev', hmem, h⟩
    · rcases processEvent_phase aid eid ph0 st ev with h2 | h2
      · left
        rw [h, h2]
      · right
        refine ⟨ev, List.mem_cons_self _ _, h2.1, h2.2.1, ?_, ?_⟩
        · rw [h]; exact h2.2.2.1
        · rw [h]; exact h2.2.2.2
    · right
      exact ⟨ev', List.mem_cons_of_mem _ hmem, h⟩

theorem handleSend_phase_cases (ids : Ids) (s : ClientState) (text : String)
    (action : Option String) (bn : BuildNet) (qn : QueryNet) :
    (handleSend ids s text action bn qn).currentPhase = s.currentPhase ∨
    ∃ evs crash, bn = BuildNet.stream evs crash ∧
      ∃ ev ∈ evs, ev.eventType = "complete" ∧ ev.data.isTruthy = true ∧
        ev.data.field "phase" = some (handleSend ids s text action bn qn).currentPhase ∧
        (handleSend ids s text action bn qn).currentPhase.isTruthy = true := by
  by_cases hg : (trimChars text.data = [] ∨ s.isLoading = true)
  · left
    unfold handleSend
    rw [if_pos hg]
  · by_cases hm : (s.mode == "build") = true
    · cases bn with
      | pre mm =>
        left
        unfold handleSend
        rw [if_neg hg]
        simp only [hm, if_true]
        rfl
      | stream evs crash =>
        have hr : (handleSend ids s text action (BuildNet.stream evs crash) qn).currentPhase =
            (processEvents ids.aid ids.eid s.currentPhase
              ("", sendStart ids.uid s text action) evs).2.currentPhase := by
          unfold handleSend
          rw [if_neg hg]
          simp only [hm, if_true]
          cases crash <;> rfl
        rcases processEvents_phase ids.aid ids.eid s.currentPhase evs
          ("", sendStart ids.uid s text action) with hph | ⟨ev, hmem, h1, h2, h3, h4⟩
        · left
          rw [hr, hph]
          rfl
        · right
          refine ⟨evs, crash, rfl, ev, hmem, h1, h2, ?_, ?_⟩
          · rw [hr]; exact h3
          · rw [hr]; exact h4
    · left
      cases qn with
      | err mm =>
        unfold handleSend
        rw [if_neg hg]
        simp only [hm, Bool.false_eq_true, if_false]
        rfl
      | ok result =>
        cases hqa : queryAnswer result with
        | ok ans =>
          unfold handleSend
          rw [if_neg hg]
          simp only [hm, Bool.false_eq_true, if_false, hqa]
          rfl
        | error mm =>
          unfold handleSend
          rw [if_neg hg]
          simp only [hm, Bool.false_eq_true, if_false, hqa]
          rfl

theorem unifiedBuildUpdate_phase (ids : Unified.Ids) (resp : JVal) (s1 : Unified.UState) :
    (Unified.buildUpdate ids resp s1).currentPhase =
      (match resp.field "current_phase" with
        | some pv => if pv.isTruthy = true ∧ ¬pv = s1.currentPhase then pv else s1.currentPhase
        | none => s1.currentPhase) := by
  simp only [Unified.buildUpdate]
  by_cases hcond : (decide (resp.field "current_phase" = some (JVal.jstr "query")) &&
      jsTruthy (resp.field "graph_built")) = true
  · rw [if_pos hcond]
  · rw [if_neg hcond]

theorem unifiedHandleSend_phase_cases (ids : Unified.Ids) (s : Unified.UState)
    (text : String) (action : Option String) (bn : Unified.Net) (qn : QueryNet) :
    (Unified.handleSend ids s text action bn qn).currentPhase = s.currentPhase ∨
    ∃ response, bn = Unified.Net.ok response ∧
      response.field "current_phase" =
        some (Unified.handleSend ids s text action bn qn).currentPhase ∧
      ((Unified.handleSend ids s text action bn qn).currentPhase).isTruthy = true := by
  by_cases hg : (trimChars text.data = [] ∨ s.isLoading = true)
  · left
    unfold Unified.handleSend
    rw [if_pos hg]
  · by_cases hm : (s.mode == "build") = true
    · cases bn with
      | err mm =>
        left
        unfold Unified.handleSend
        rw [if_neg hg]
        simp only [hm, if_true]
        rfl
      | ok response =>
        have hr : (Unified.handleSend ids s text action (Unified.Net.ok response) qn).currentPhase =
            (Unified.buildUpdate ids response (Unified.sendStart ids.uid s text)).currentPhase := by
          unfold Unified.handleSend
          rw [if_neg hg]
          simp only [hm, if_true]
        rw [hr, unifiedBuildUpdate_phase]
        cases hf : response.field "current_phase" with
        | none =>
          left
          simp only [hf]
          rfl
        | some pv =>
          simp only [hf]
          by_cases hc : pv.isTruthy = true ∧ ¬pv = (Unified.sendStart ids.uid s text).currentPhase
          · rw [if_pos hc]
            right
            exact ⟨response, rfl, by rw [hf], hc.1⟩
          · rw [if_neg hc]
            left
            rfl
    · left
      cases qn with
      | err mm =>
        unfold Unified.handleSend
        rw [if_neg hg]
        simp only [hm, Bool.false_eq_true, if_false]
        rfl
      | ok result =>
        cases hqa : queryAnswer result with
        | ok ans =>
          unfold Unified.handleSend
          rw [if_neg hg]
          simp only [hm, Bool.false_eq_true, if_false, hqa]
          rfl
        | error mm =>
          unfold Unified.handleSend
          rw [if_neg hg]
          simp only [hm, Bool.false_eq_true, if_false, hqa]
          rfl

/-- C8: the phase only ever changes to a value the backend explicitly
declared — on the streaming page, the `phase` field of a truthy `complete`
payload; on the unified page, the `current_phase` field of the response —
and no local operation changes it: any `handleSend` whose result phase
differs from the start phase ran a stream containing such a `complete`
event, and `handleRetry` and `handleCheckpointAction` change phase only
through the same mechanism. -/
theorem c8_phase_only_backend_declared :
    (∀ (ids : Ids) (s : ClientState) (text : String) (action : Option String)
        (bn : BuildNet) (qn : QueryNet),
      (handleSend ids s text action bn qn).currentPhase ≠ s.currentPhase →
      ∃ evs crash, bn = BuildNet.stream evs crash ∧
        ∃ ev ∈ evs, ev.eventType = "complete" ∧ ev.data.isTruthy = true ∧
          ev.data.field "phase" = some (handleSend ids s text action bn qn).currentPhase ∧
          (handleSend ids s text action bn qn).currentPhase.isTruthy = true) ∧
    (∀ (ids : Ids) (s : ClientState) (bn : BuildNet) (qn : QueryNet),
      (handleRetry ids s bn qn).currentPhase = s.currentPhase ∨
      ∃ evs crash, bn = BuildNet.stream evs crash ∧
        ∃ ev ∈ evs, ev.eventType = "complete" ∧ ev.data.isTruthy = true ∧
          ev.data.field "phase" = some (handleRetry ids s bn qn).currentPhase ∧
          (handleRetry ids s bn qn).currentPhase.isTruthy = true) ∧
    (∀ (ids : Ids) (s : ClientState) (a : String) (bn : BuildNet) (qn : QueryNet),
      (handleCheckpointAction ids s a bn qn).currentPhase = s.currentPhase ∨
      ∃ evs crash, bn = BuildNet.stream evs crash ∧
        ∃ ev ∈ evs, ev.eventType = "complete" ∧ ev.data.isTruthy = true ∧
          ev.data.field "phase" = some (handleCheckpointAction ids s a bn qn).currentPhase ∧
          (handleCheckpointAction ids s a bn qn).currentPhase.isTruthy = true) ∧
    (∀ (ids : Unified.Ids) (s : Unified.UState) (text : String) (action : Option String)
        (bn : Unified.Net) (qn : QueryNet),
      (Unified.handleSend ids s text action bn qn).currentPhase ≠ s.currentPhase →
      ∃ response, bn = Unified.Net.ok response ∧
        response.field "current_phase" =
          some (Unified.handleSend ids s text action bn qn).currentPhase ∧
        ((Unified.handleSend ids s text action bn qn).currentPhase).isTruthy = true) := by
  refine ⟨?_, ?_, ?_, ?_⟩
  · intro ids s text action bn qn hch
    rcases handleSend_phase_cases ids s text action bn qn with h | h
    · exact absurd h hch
    · exact h
  · intro ids s bn qn
    cases hls : s.lastSend with
    | none =>
      left
      unfold handleRetry
      rw [hls]
    | some pair =>
      obtain ⟨mm, aa⟩ := pair
      by_cases hb : (mm == "") = true
      · left
        unfold handleRetry
        rw [hls]
        simp only [hb, if_true]
      · have hre : handleRetry ids s bn qn =
            handleSend ids { s with error := none } mm aa bn qn := by
          unfold handleRetry
          rw [hls]
          simp only [hb, Bool.false_eq_true, if_false]
        rw [hre]
        rcases handleSend_phase_cases ids { s with error := none } mm aa bn qn with h | h
        · left
          exact h
        · right
          exact h
  · intro ids s a bn qn
    rcases handleSend_phase_cases ids { s with checkpointData := none } a (some a) bn qn
      with h | h
    · left
      exact h
    · right
      exact h
  · intro ids s text action bn qn hch
    rcases unifiedHandleSend_phase_cases ids s text action bn qn with h | h
    · exact absurd h hch
    · exact h

/-- Witness for C8: a concrete exchange whose single `complete` event
declares `phase = "file_suggestion"`, changing the phase from
`user_intent`. -/
theorem c8_phase_only_backend_declared_witness :
    ((handleSend (Ids.mk "u1" "a1" "e1" "q1") initialState "hi" none
        (BuildNet.stream [SSEEvent.mk "complete"
          (JVal.jobj (JFields.cons "phase" (JVal.jstr "file_suggestion") JFields.nil))] none)
        (QueryNet.err "q")).currentPhase ≠ initialState.currentPhase) ∧
    (∃ evs crash,
      BuildNet.stream [SSEEvent.mk "complete"
          (JVal.jobj (JFields.cons "phase" (JVal.jstr "file_suggestion") JFields.nil))] none =
        BuildNet.stream evs crash ∧
      ∃ ev ∈ evs, ev.eventType = "complete" ∧ ev.data.isTruthy = true ∧
        ev.data.field "phase" =
          some (handleSend (Ids.mk "u1" "a1" "e1" "q1") initialState "hi" none
            (BuildNet.stream [SSEEvent.mk "complete"
              (JVal.jobj (JFields.cons "phase" (JVal.jstr "file_suggestion") JFields.nil))] none)
            (QueryNet.err "q")).currentPhase ∧
        (handleSend (Ids.mk "u1" "a1" "e1" "q1") initialState "hi" none
            (BuildNet.stream [SSEEvent.mk "complete"
              (JVal.jobj (JFields.cons "phase" (JVal.jstr "file_suggestion") JFields.nil))] none)
            (QueryNet.err "q")).currentPhase.isTruthy = true) :=
  ⟨by decide, c8_phase_only_backend_declared.1 (Ids.mk "u1" "a1" "e1" "q1") initialState
    "hi" none
    (BuildNet.stream [SSEEvent.mk "complete"
      (JVal.jobj (JFields.cons "phase" (JVal.jstr "file_suggestion") JFields.nil))] none)
    (QueryNet.err "q") (by decide)⟩

theorem unifiedBuildUpdate_mode_switch (ids : Unified.Ids) (resp : JVal)
    (s1 : Unified.UState)
    (h1 : resp.field "current_phase" = some (JVal.jstr "query"))
    (h2 : jsTruthy (resp.field "graph_built") = true) :
    (Unified.buildUpdate ids resp s1).mode = "query" := by
  simp only [Unified.buildUpdate]
  have hcond : (decide (resp.field "current_phase" = some (JVal.jstr "query")) &&
      jsTruthy (resp.field "graph_built")) = true := by
    rw [h1, h2, Bool.and_true]
    exact decide_eq_true rfl
  rw [if_pos hcond]

theorem unifiedHandleSend_mode_query (ids : Unified.Ids) (s : Unified.UState)
    (text : String) (action : Option String) (bn : Unified.Net) (qn : QueryNet)
    (h : s.mode = "query") :
    (Unified.handleSend ids s text action bn qn).mode = "query" := by
  by_cases hg : (trimChars text.data = [] ∨ s.isLoading = true)
  · unfold Unified.handleSend
    rw [if_pos hg]
    exact h
  · have hm : (s.mode == "build") = false := by
      rw [h]
      rfl
    unfold Unified.handleSend
    rw [if_neg hg]
    simp only [hm, Bool.false_eq_true, if_false]
    cases bn with
    | err mm =>
      cases qn with
      | err m2 => exact h
      | ok result =>
        cases hqa : queryAnswer result with
        | ok ans => simp only [hqa]; exact h
        | error m2 => simp only [hqa]; exact h
    | ok response =>
      cases qn with
      | err m2 => exact h
      | ok result =>
        cases hqa : queryAnswer result with
        | ok ans => simp only [hqa]; exact h
        | error m2 => simp only [hqa]; exact h

/-- C9: a response declaring the terminal phase with the graph built
(`current_phase = "query"` and truthy `graph_built`) switches the mode from
`build` to `query`, and the transition is one-way: from a `query`-mode
state, every further exchange — `handleSend` with any response (also one
lacking any mode or phase fields) or `handleCheckpointAction` — leaves the
mode at `query`. -/
theorem c9_graph_built_switches_mode_one_way :
    (∀ (ids : Unified.Ids) (s : Unified.UState) (text : String) (action : Option String)
        (response : JVal) (qn : QueryNet),
      s.mode = "build" → ¬trimChars text.data = [] → s.isLoading = false →
      response.field "current_phase" = some (JVal.jstr "query") →
      jsTruthy (response.field "graph_built") = true →
      (Unified.handleSend ids s text action (Unified.Net.ok response) qn).mode = "query") ∧
    (∀ (ids : Unified.Ids) (s : Unified.UState) (text : String) (action : Option String)
        (bn : Unified.Net) (qn : QueryNet),
      s.mode = "query" →
      (Unified.handleSend ids s text action bn qn).mode = "query") ∧
    (∀ (ids : Unified.Ids) (s : Unified.UState) (a : String) (bn : Unified.Net)
        (qn : QueryNet),
      s.mode = "query" →
      (Unified.handleCheckpointAction ids s a bn qn).mode = "query") := by
  refine ⟨?_, ?_, ?_⟩
  · intro ids s text action response qn hmode htext hload hcp hgb
    have hguard : ¬(trimChars text.data = [] ∨ s.isLoading = true) := by
      rintro (h | h)
      · exact htext h
      · rw [hload] at h
        exact Bool.false_ne_true h
    have hm : (s.mode == "build") = true := by
      rw [hmode]
      rfl
    unfold Unified.handleSend
    rw [if_neg hguard]
    simp only [hm, if_true]
    show (Unified.buildUpdate ids response (Unified.sendStart ids.uid s text)).mode = "query"
    exact unifiedBuildUpdate_mode_switch ids response _ hcp hgb
  · intro ids s text action bn qn h
    exact unifiedHandleSend_mode_query ids s text action bn qn h
  · intro ids s a bn qn h
    exact unifiedHandleSend_mode_query ids { s with checkpointData := none } a (some a) bn qn h

/-- Witness for C9: from the initial build-mode state, the concrete response
`{"current_phase": "query", "graph_built": true}` flips the mode to `query`. -/
theorem c9_graph_built_switches_mode_one_way_witness :
    (Unified.initial.mode = "build" ∧ ¬trimChars "build it".data = [] ∧
      Unified.initial.isLoading = false ∧
      (JVal.jobj (JFields.cons "current_phase" (JVal.jstr "query")
        (JFields.cons "graph_built" (JVal.jbool true) JFields.nil))).field "current_phase" =
          some (JVal.jstr "query") ∧
      jsTruthy ((JVal.jobj (JFields.cons "current_phase" (JVal.jstr "query")
        (JFields.cons "graph_built" (JVal.jbool true) JFields.nil))).field "graph_built") =
          true) ∧
    (Unified.handleSend (Unified.Ids.mk "u1" "a1" "e1" "q1" "s1") Unified.initial "build it"
        none
        (Unified.Net.ok (JVal.jobj (JFields.cons "current_phase" (JVal.jstr "query")
          (JFields.cons "graph_built" (JVal.jbool true) JFields.nil))))
        (QueryNet.err "q")).mode = "query" :=
  ⟨⟨by decide, by decide, by decide, by decide, by decide⟩,
    c9_graph_built_switches_mode_one_way.1 (Unified.Ids.mk "u1" "a1" "e1" "q1" "s1")
      Unified.initial "build it" none
      (JVal.jobj (JFields.cons "current_phase" (JVal.jstr "query")
        (JFields.cons "graph_built" (JVal.jbool true) JFields.nil)))
      (QueryNet.err "q") (by decide) (by decide) (by decide) (by decide) (by decide)⟩

/-- C1 counterexample: the streaming request body built for
`performCheckpointAction("approve")` — `sendStreamingMessage` posts
`{session_id, message}` — carries the action name as the message but has no
`action` member at all, contradicting the claimed
`action = "approve"` parameter on the dispatched request. -/
theorem c1_counterexample :
    (streamRequestBody "session-1" "approve").lookup "message" =
      some (JVal.jstr "approve") ∧
    (streamRequestBody "session-1" "approve").lookup "action" = none ∧
    ¬(streamRequestBody "session-1" "approve").lookup "action" =
      some (JVal.jstr "approve") := by
  refine ⟨by decide, by decide, by decide⟩

/-- C1 (amended): performing a checkpoint action clears CheckpointState
before the request resolves — even when the request fails outright, the
checkpoint stays cleared — and sends the action name as the user-visible
message while recording it as the explicit action parameter client-side (in
the retry pair); the streaming request body, however, carries only
`session_id` and `message` — the action parameter is not transmitted (only
the non-streaming unified endpoint transmits it). -/
theorem c1_checkpoint_action_clears_and_sends_message
    (ids : Ids) (s : ClientState) (action m sid : String) (qn : QueryNet)
    (hmode : s.mode = "build")
    (htext : ¬trimChars action.data = [])
    (hload : s.isLoading = false) :
    (handleCheckpointAction ids s action (BuildNet.pre m) qn).checkpointData = none ∧
    (handleCheckpointAction ids s action (BuildNet.pre m) qn).lastSend =
      some (action, some action) ∧
    (handleCheckpointAction ids s action (BuildNet.pre m) qn).messages =
      s.messages ++ [mkUserMsg ids.uid action,
        mkErrorMsg ids.eid (if m == "" then "Failed to send message" else m)] ∧
    (streamRequestBody sid action).lookup "message" = some (JVal.jstr action) ∧
    (streamRequestBody sid action).lookup "action" = none ∧
    (unifiedRequestBody sid action (some action)).lookup "action" =
      some (JVal.jstr action) := by
  have hguard : ¬(trimChars action.data = [] ∨
      ({ s with checkpointData := none } : ClientState).isLoading = true) := by
    rintro (h | h)
    · exact htext h
    · exact Bool.false_ne_true (hload ▸ h)
  have hm : (({ s with checkpointData := none } : ClientState).mode == "build") = true := by
    show (s.mode == "build") = true
    rw [hmode]
    rfl
  have hca : handleCheckpointAction ids s action (BuildNet.pre m) qn =
      catchUpdate ids.eid m
        (sendStart ids.uid { s with checkpointData := none } action (some action)) := by
    show handleSend ids { s with checkpointData := none } action (some action)
      (BuildNet.pre m) qn = _
    unfold handleSend
    rw [if_neg hguard]
    simp only [hm, if_true]
  rw [hca]
  refine ⟨rfl, rfl, ?_, ?_, ?_, ?_⟩
  · show (s.messages ++ [mkUserMsg ids.uid action]) ++ [mkErrorMsg ids.eid _] = _
    rw [List.append_assoc]
    rfl
  · simp [streamRequestBody, List.lookup]
  · simp [streamRequestBody, List.lookup]
  · simp [unifiedRequestBody, List.lookup]

/-- Witness for C1 (amended): approving a pending `schema_approval`
checkpoint whose request then fails; the checkpoint stays cleared and the
retry pair holds the action twice. -/
theorem c1_checkpoint_action_clears_and_sends_message_witness :
    (({ initialState with checkpointData := some (Checkpoint.mk
        (some (JVal.jstr "schema_approval")) none none) } : ClientState).mode = "build" ∧
      ¬trimChars "approve".data = [] ∧
      ({ initialState with checkpointData := some (Checkpoint.mk
        (some (JVal.jstr "schema_approval")) none none) } : ClientState).isLoading = false) ∧
    ((handleCheckpointAction (Ids.mk "u1" "a1" "e1" "q1")
        { initialState with checkpointData := some (Checkpoint.mk
          (some (JVal.jstr "schema_approval")) none none) } "approve"
        (BuildNet.pre "boom") (QueryNet.err "q")).checkpointData = none ∧
      (handleCheckpointAction (Ids.mk "u1" "a1" "e1" "q1")
        { initialState with checkpointData := some (Checkpoint.mk
          (some (JVal.jstr "schema_approval")) none none) } "approve"
        (BuildNet.pre "boom") (QueryNet.err "q")).lastSend =
        some ("approve", some "approve") ∧
      (streamRequestBody "session-1" "approve").lookup "message" =
        some (JVal.jstr "approve") ∧
      (streamRequestBody "session-1" "approve").lookup "action" = none) := by
  have h := c1_checkpoint_action_clears_and_sends_message (Ids.mk "u1" "a1" "e1" "q1")
    { initialState with checkpointData := some (Checkpoint.mk
      (some (JVal.jstr "schema_approval")) none none) } "approve" "boom" "session-1"
    (QueryNet.err "q") (by decide) (by decide) (by decide)
  exact ⟨⟨by decide, by decide, by decide⟩, h.1, h.2.1, h.2.2.2.1, h.2.2.2.2.1⟩
